import Mathlib

/-!
Verification of the CX TimeFilter MCP server (shallow embedding).

The definitions below are translated from the repository's JavaScript
sources:
  * `src/src/utils/mcp-protocol.js` — envelope builders, request
    validation, numeric error codes;
  * `src/src/tools/timefilter.js` (bundled into the protocol file) —
    the three time-filter tools and the period catalog;
  * `src/src/server.js` — the `/mcp/tools/call` dispatch pipeline.

Modelling conventions:
  * JavaScript values that a request field may hold are modelled by
    `JSVal`; JS truthiness is `JSVal.truthy`.  A missing object key is
    `JSVal.undef`.
  * Nondeterministic inputs (`Date.now()`, `new Date()`,
    `Math.random()`-based ids) are lambda-lifted into explicit
    parameters: a `Wallclock` (current instant in epoch milliseconds
    plus its ISO rendering) and an `id` string.
  * A JS function that may throw is embedded as `Except String`; the
    tool executors contain their own try/catch and therefore always
    return `.ok`.
  * `new Date(s)` applied to a string that matched the zod pattern
    `YYYY-MM-DD` is embedded by `jsDateParse`, which yields the calendar
    date when the components are in range (ECMAScript rejects
    out-of-range date-time strings) and `none` otherwise; its epoch
    value is `Ymd.ms` via the standard civil-from-days computation.
  * Quotation marks and emoji decorations inside user-facing message
    strings are elided; no claim depends on them.
  * The zod validators report the first failing check; zod aggregates
    all issues into one message, but every claim only needs the
    validator's verdict and that its reason ends up inside the
    dispatcher's message.
-/

/-- A JavaScript value as far as the request-validation code inspects
one: `undef` is a missing key, the other constructors carry the usual
primitive payloads, and `obj` stands for any object value. -/
inductive JSVal where
  | undef
  | nullv
  | boolv (b : Bool)
  | num (n : Int)
  | str (s : String)
  | obj
deriving DecidableEq, Repr

/-- JS truthiness of a `JSVal` (`!!v`): `undefined`, `null`, `false`,
`0` and `""` are falsy, everything else is truthy. -/
def JSVal.truthy : JSVal → Bool
  | .undef => false
  | .nullv => false
  | .boolv b => b
  | .num n => n != 0
  | .str s => s != ""
  | .obj => true

/-- The current instant, lambda-lifted from `new Date()` /
`Date.now()`: epoch milliseconds and the `toISOString()` rendering. -/
structure Wallclock where
  ms : Int
  iso : String
deriving Repr

/-- The value the JS expression `errorCodes[code] || -32000` can
produce: a numeric code, or — when `code` is no own key of the table
but names a member inherited from `Object.prototype` — that truthy
inherited member itself (a built-in function, or the prototype object
for `__proto__`), which `||` passes through unchanged.  The inherited
member is identified by its name. -/
inductive JsErrorCode where
  | num (n : Int)
  | inherited (member : String)
deriving DecidableEq, Repr

/-- The own-property names of `Object.prototype`: accessing any of
these on an object literal that has no own property of that name
yields a truthy value. -/
def objectPrototypeMembers : List String :=
  ["constructor", "__defineGetter__", "__defineSetter__", "hasOwnProperty",
   "__lookupGetter__", "__lookupSetter__", "isPrototypeOf",
   "propertyIsEnumerable", "toString", "valueOf", "__proto__",
   "toLocaleString"]

/-- The `error` member of a JSON-RPC error envelope
(`mcp-protocol.js`, `createMCPError`). -/
structure MCPErrorObj where
  code : JsErrorCode
  message : String
  data : Option String := none
deriving DecidableEq, Repr

/-- A response envelope as built by `createMCPResponse` /
`createMCPError` in `mcp-protocol.js`; `ρ` is the payload type of the
`result` member. -/
structure MCPEnvelope (ρ : Type) where
  jsonrpc : String
  id : String
  result : Option ρ := none
  error : Option MCPErrorObj := none
deriving Repr

/-- The static code table inside `getErrorCode`
(`mcp-protocol.js` lines 87-101). -/
def errorCodes : List (String × Int) :=
  [("PARSE_ERROR", -32700),
   ("INVALID_REQUEST", -32600),
   ("METHOD_NOT_FOUND", -32601),
   ("INVALID_PARAMS", -32602),
   ("INTERNAL_ERROR", -32603),
   ("NOT_FOUND", -32000),
   ("UNAUTHORIZED", -32001),
   ("FORBIDDEN", -32002),
   ("TIMEOUT", -32003)]

/-- `getErrorCode` (`mcp-protocol.js` lines 87-101), faithful to the JS
property access `errorCodes[code] || -32000`: an own table entry is
returned as its numeric code (every table value is nonzero, hence
truthy); a name absent from the table but naming an inherited
`Object.prototype` member evaluates to that truthy member, which `||`
passes through; any other name evaluates to `undefined`, so `||`
yields the default -32000. -/
def getErrorCode (code : String) : JsErrorCode :=
  match errorCodes.lookup code with
  | some n => .num n
  | none =>
    if code ∈ objectPrototypeMembers then .inherited code
    else .num (-32000)

/-- `createMCPResponse` (`mcp-protocol.js` lines 10-16); the generated
id is an explicit parameter. -/
def createMCPResponse {ρ : Type} (id : String) (result : ρ) : MCPEnvelope ρ :=
  { jsonrpc := "2.0", id := id, result := some result }

/-- `createMCPError` (`mcp-protocol.js` lines 25-40); the generated id
is an explicit parameter. -/
def createMCPError {ρ : Type} (id : String) (code : String) (message : String)
    (data : Option String := none) : MCPEnvelope ρ :=
  { jsonrpc := "2.0", id := id,
    error := some { code := getErrorCode code, message := message, data := data } }

/-- The request object handed to `validateMCPRequest`: the four fields
the function inspects, each an arbitrary JS value (`undef` when the
key is missing). -/
structure MCPRequest where
  jsonrpc : JSVal := .undef
  method : JSVal := .undef
  result : JSVal := .undef
  error : JSVal := .undef
deriving DecidableEq, Repr

/-- The `{valid, error?}` record returned by `validateMCPRequest`. -/
structure ValidationVerdict where
  valid : Bool
  error : Option String := none
deriving DecidableEq, Repr

/-- `validateMCPRequest` (`mcp-protocol.js` lines 47-72).  A
falsy/absent request is rejected; a truthy `jsonrpc` field differing
from "2.0" is rejected; a request none of whose `method`, `result`,
`error` fields is truthy is rejected; anything else is valid. -/
def validateMCPRequest (request : Option MCPRequest) : ValidationVerdict :=
  match request with
  | none => { valid := false, error := some "Request is required" }
  | some r =>
    if r.jsonrpc.truthy && r.jsonrpc != .str "2.0" then
      { valid := false, error := some "Invalid JSON-RPC version. Must be 2.0" }
    else if !r.method.truthy && !r.result.truthy && !r.error.truthy then
      { valid := false, error := some "Request must have method, result, or error" }
    else
      { valid := true }

/-- `a.isPrefixOf`-style check on character lists (structural helper
for `jsIncludes`). -/
def charsPrefixOf : List Char → List Char → Bool
  | [], _ => true
  | _ :: _, [] => false
  | a :: as, b :: bs => a == b && charsPrefixOf as bs

/-- Substring occurrence on character lists: `pat` occurs somewhere in
`l` (the empty pattern occurs everywhere, as in JS). -/
def charsInfixOf (pat : List Char) : List Char → Bool
  | [] => charsPrefixOf pat []
  | b :: bs => charsPrefixOf pat (b :: bs) || charsInfixOf pat bs

/-- JS `s.toLowerCase()`, applied per character (every string that
reaches it here is ASCII). -/
def jsToLower (s : String) : String :=
  String.mk (s.toList.map Char.toLower)

/-- JS `s.includes(sub)`. -/
def jsIncludes (s sub : String) : Bool :=
  charsInfixOf sub.toList s.toList

/-- JS `s.replace(" ", "-")`: only the first occurrence is replaced. -/
def replaceFirstSpaceAux : List Char → List Char
  | [] => []
  | c :: cs => if c == ' ' then '-' :: cs else c :: replaceFirstSpaceAux cs

/-- JS `s.replace(" ", "-")` on a string. -/
def replaceFirstSpace (s : String) : String :=
  String.mk (replaceFirstSpaceAux s.toList)

/-- A calendar date as carried by a `YYYY-MM-DD` string. -/
structure Ymd where
  y : Nat
  m : Nat
  d : Nat
deriving DecidableEq, Repr

/-- Numeric value of a decimal digit character. -/
def digitVal (c : Char) : Nat := c.toNat - 48

/-- Decompose a string of the exact zod shape `^\d{4}-\d{2}-\d{2}$`
into its numeric components; `none` when the shape does not match. -/
def parseYMDShape (s : String) : Option Ymd :=
  match s.toList with
  | [y1, y2, y3, y4, h1, m1, m2, h2, d1, d2] =>
    if h1 == '-' && h2 == '-' &&
       ([y1, y2, y3, y4, m1, m2, d1, d2].all Char.isDigit) then
      some ⟨digitVal y1 * 1000 + digitVal y2 * 100 + digitVal y3 * 10 + digitVal y4,
            digitVal m1 * 10 + digitVal m2,
            digitVal d1 * 10 + digitVal d2⟩
    else none
  | _ => none

/-- The zod regex `^\d{4}-\d{2}-\d{2}$` as a Boolean test. -/
def isYMDShape (s : String) : Bool := (parseYMDShape s).isSome

/-- Gregorian leap-year rule. -/
def isLeapYear (y : Nat) : Bool :=
  (y % 4 == 0 && y % 100 != 0) || y % 400 == 0

/-- Days in a Gregorian month. -/
def daysInMonth (y m : Nat) : Nat :=
  if m == 2 then (if isLeapYear y then 29 else 28)
  else if m == 4 || m == 6 || m == 9 || m == 11 then 30
  else 31

/-- Whether the components denote a real calendar date. -/
def Ymd.isRealDate (x : Ymd) : Bool :=
  1 ≤ x.m && x.m ≤ 12 && 1 ≤ x.d && x.d ≤ daysInMonth x.y x.m

/-- `new Date(s)` for a string of the zod `YYYY-MM-DD` shape: the
ECMAScript date-time string parser yields a valid date exactly when the
components are an in-range calendar date, and an invalid date
(`NaN` time value) otherwise. -/
def jsDateParse (s : String) : Option Ymd :=
  match parseYMDShape s with
  | some x => if x.isRealDate then some x else none
  | none => none

/-- Days since the Unix epoch of a civil date (the standard
era/year-of-era computation; all divisions act on nonnegative
operands). -/
def daysFromCivil (y m d : Int) : Int :=
  let yAdj := y - (if m ≤ 2 then 1 else 0)
  let era := (if 0 ≤ yAdj then yAdj else yAdj - 399) / 400
  let yoe := yAdj - era * 400
  let mp := (m + 9) % 12
  let doy := (153 * mp + 2) / 5 + d - 1
  let doe := yoe * 365 + yoe / 4 - yoe / 100 + doy
  era * 146097 + doe - 719468

/-- The epoch-millisecond time value of a `YYYY-MM-DD` date (UTC
midnight), as held by the corresponding JS `Date`. -/
def Ymd.ms (x : Ymd) : Int :=
  daysFromCivil (Int.ofNat x.y) (Int.ofNat x.m) (Int.ofNat x.d) * 86400000

/-- Left-pad a numeral with zeros. -/
def padNat (width n : Nat) : String :=
  let s := toString n
  if s.length < width then
    String.mk (List.replicate (width - s.length) '0') ++ s
  else s

/-- `date.toISOString()` for a date parsed from `YYYY-MM-DD`
(UTC midnight). -/
def Ymd.iso (x : Ymd) : String :=
  padNat 4 x.y ++ "-" ++ padNat 2 x.m ++ "-" ++ padNat 2 x.d ++ "T00:00:00.000Z"

/-- One entry of the period catalog (`timefilter.js` lines 184-204). -/
structure Period where
  name : String
  scale : Int
  isCustom : Bool
deriving DecidableEq, Repr

/-- The fixed, ordered period catalog `PREDEFINED_PERIODS`
(`timefilter.js` lines 184-204). -/
def PREDEFINED_PERIODS : List Period :=
  [⟨"All Time", 0, false⟩,
   ⟨"Today", 5, false⟩,
   ⟨"Yesterday", 80, false⟩,
   ⟨"Last 24 hours", 10, false⟩,
   ⟨"This Week", 15, false⟩,
   ⟨"Last Week", 25, false⟩,
   ⟨"Last 7 days", 20, false⟩,
   ⟨"Last 14 days", 85, false⟩,
   ⟨"This Month", 30, false⟩,
   ⟨"Last Month", 35, false⟩,
   ⟨"Last 30 days", 50, false⟩,
   ⟨"This Quarter", 40, false⟩,
   ⟨"Last Quarter", 45, false⟩,
   ⟨"Last 90 days", 55, false⟩,
   ⟨"Last 180 days", 60, false⟩,
   ⟨"This Year", 65, false⟩,
   ⟨"Last Year", 75, false⟩,
   ⟨"Last 12 Months", 70, false⟩,
   ⟨"Custom", 100, true⟩]

/-- The `tabName` enumeration advertised by the tool input schemas. -/
def tabEnum : List String :=
  ["Overview", "Comparison", "Prediction", "Text Analysis", "Customer Journey"]

/-- The matching test of the `set_time_period` resolution loop
(`timefilter.js` lines 266-274): the lowercased catalog name contains
the search key, or the search key contains the lowercased catalog
name. -/
def periodMatches (searchKey : String) (p : Period) : Bool :=
  jsIncludes (jsToLower p.name) searchKey || jsIncludes searchKey (jsToLower p.name)

/-- The relevant properties of a tool-call `arguments` object: the
four keys any of the three tools ever reads (`undef` = key absent). -/
structure RawArgs where
  timePeriodName : JSVal := .undef
  tabName : JSVal := .undef
  startDate : JSVal := .undef
  endDate : JSVal := .undef
deriving DecidableEq, Repr

/-- One property of an advertised JSON input schema, restricted to the
constraint kinds the three tools use. -/
structure PropSchema where
  type : String := "string"
  enumVals : Option (List String) := none
  pattern : Option String := none
deriving DecidableEq, Repr

/-- An advertised tool input schema (`type: "object"` is implicit). -/
structure InputSchema where
  properties : List (String × PropSchema)
  required : List String
deriving DecidableEq, Repr

/-- The `filterConfig` object built by the two setter tools; the date
fields are optional because `set_time_period` only attaches them for
the scale-100 (custom) entry. -/
structure FilterConfig where
  periodScale : Int
  tabName : String
  periodName : String
  isCustom : Bool
  timestamp : String
  startDate : Option String := none
  endDate : Option String := none
deriving DecidableEq, Repr

/-- The `action` object attached to successful setter outcomes. -/
structure ActionInfo where
  type : String
  target : String
  data : FilterConfig
deriving DecidableEq, Repr

/-- One entry of `periodsInfo` inside `list_time_periods`. -/
structure PeriodInfo where
  name : String
  scale : Int
  isCustom : Bool
  category : String
deriving DecidableEq, Repr

/-- The `data` member of the `list_time_periods` outcome. -/
structure ListData where
  calendarPeriods : List PeriodInfo
  rollingPeriods : List PeriodInfo
  customPeriods : List PeriodInfo
  totalCount : Nat
deriving DecidableEq, Repr

/-- A ToolOutcome: the object returned by a tool executor.  Optional
members cover the union of the three tools' payloads. -/
structure ToolOutcome where
  success : Bool
  message : String
  filterConfig : Option FilterConfig := none
  action : Option ActionInfo := none
  availablePeriods : Option (List String) := none
  data : Option ListData := none
deriving DecidableEq, Repr

/-- `filter-` target string of the `action` member:
``"filter-" + tabName.toLowerCase().replace(" ", "-")``. -/
def tabTarget (tab : String) : String :=
  "filter-" ++ replaceFirstSpace (jsToLower tab)

/-- `setTimePeriodSchema.parse` (`timefilter.js` lines 207-210,
251-258): both fields must be strings of length at least 1.  The first
failing check's message is reported. -/
def setTimePeriodValidate (a : RawArgs) : Except String RawArgs :=
  match a.timePeriodName with
  | .str tpn =>
    if tpn.length < 1 then .error "Time period name is required"
    else
      match a.tabName with
      | .str tab =>
        if tab.length < 1 then .error "Tab name is required"
        else .ok { timePeriodName := .str tpn, tabName := .str tab }
      | _ => .error "Expected string, received other type for tabName"
  | _ => .error "Expected string, received other type for timePeriodName"

/-- `setCustomDateRangeSchema.parse` (`timefilter.js` lines 212-220,
372-379): the two dates must be strings matching
`^\d{4}-\d{2}-\d{2}$`, the tab a string of length at least 1. -/
def setCustomDateRangeValidate (a : RawArgs) : Except String RawArgs :=
  match a.startDate with
  | .str sd =>
    if !isYMDShape sd then .error "Start date must be in YYYY-MM-DD format"
    else
      match a.endDate with
      | .str ed =>
        if !isYMDShape ed then .error "End date must be in YYYY-MM-DD format"
        else
          match a.tabName with
          | .str tab =>
            if tab.length < 1 then .error "Tab name is required"
            else .ok { tabName := .str tab, startDate := .str sd, endDate := .str ed }
          | _ => .error "Expected string, received other type for tabName"
      | _ => .error "Expected string, received other type for endDate"
  | _ => .error "Expected string, received other type for startDate"

/-- `listTimePeriodsTools.validateArgs` (`timefilter.js` lines
461-463): always succeeds, passing the arguments through. -/
def listTimePeriodsValidate (a : RawArgs) : Except String RawArgs := .ok a

/-- `setTimePeriodTool.execute` (`timefilter.js` lines 260-335).  The
body is wrapped in try/catch, so the embedding always returns `.ok`;
destructuring a non-string field would raise inside the try block and
surface as a failure outcome (final case). -/
def setTimePeriodExecute (a : RawArgs) (clock : Wallclock) :
    Except String ToolOutcome := .ok <|
  match a.timePeriodName, a.tabName with
  | .str tpn, .str tab =>
    let searchKey := jsToLower tpn
    match PREDEFINED_PERIODS.find? (fun p => periodMatches searchKey p) with
    | none =>
      let names := PREDEFINED_PERIODS.map (fun p => p.name)
      { success := false,
        message := "Time period " ++ tpn ++ " not found. Available periods: " ++
          String.intercalate ", " names,
        availablePeriods := some names }
    | some selectedPeriod =>
      let startDate : Option String :=
        if selectedPeriod.scale == 0 then none else some clock.iso
      let endDate : Option String :=
        if selectedPeriod.scale == 0 then none else some clock.iso
      let filterConfig : FilterConfig :=
        { periodScale := selectedPeriod.scale,
          tabName := tab,
          periodName := selectedPeriod.name,
          isCustom := selectedPeriod.isCustom,
          timestamp := clock.iso,
          startDate := if selectedPeriod.scale == 100 then startDate else none,
          endDate := if selectedPeriod.scale == 100 then endDate else none }
      { success := true,
        message := "Successfully set time filter to " ++ selectedPeriod.name ++
          " for " ++ tab ++ " tab.",
        filterConfig := some filterConfig,
        action := some { type := "time_period_changed",
                         target := tabTarget tab,
                         data := filterConfig } }
  | _, _ =>
    { success := false,
      message := "Error setting time period: cannot read properties" }

/-- `setCustomDateRangeTool.execute` (`timefilter.js` lines 381-446):
parse both dates, reject reversed or future ranges, otherwise build
the custom filter configuration. -/
def setCustomDateRangeExecute (a : RawArgs) (clock : Wallclock) :
    Except String ToolOutcome := .ok <|
  match a.startDate, a.endDate, a.tabName with
  | .str sd, .str ed, .str tab =>
    match jsDateParse sd with
    | none =>
      { success := false,
        message := "Invalid start date: " ++ sd ++ ". Please use format YYYY-MM-DD" }
    | some startD =>
      match jsDateParse ed with
      | none =>
        { success := false,
          message := "Invalid end date: " ++ ed ++ ". Please use format YYYY-MM-DD" }
      | some endD =>
        if endD.ms < startD.ms then
          { success := false, message := "Start date cannot be after end date" }
        else if clock.ms < endD.ms then
          { success := false, message := "End date cannot be in the future" }
        else
          let dateRangeText := sd ++ " to " ++ ed
          let filterConfig : FilterConfig :=
            { periodScale := 100,
              startDate := some startD.iso,
              endDate := some endD.iso,
              tabName := tab,
              periodName := "Custom (" ++ dateRangeText ++ ")",
              isCustom := true,
              timestamp := clock.iso }
          { success := true,
            message := "Successfully set custom date range " ++ dateRangeText ++
              " for " ++ tab ++ " tab.",
            filterConfig := some filterConfig,
            action := some { type := "time_period_changed",
                             target := tabTarget tab,
                             data := filterConfig } }
  | _, _, _ =>
    { success := false,
      message := "Error setting custom date range: cannot read properties" }

/-- Category of a catalog entry inside `list_time_periods`
(`timefilter.js` lines 467-479): custom entries are "Custom"; names
containing "This", or containing "Last" but neither "days" nor
"hours", are "Calendar"; the rest are "Rolling". -/
def periodCategory (p : Period) : String :=
  if p.isCustom then "Custom"
  else if jsIncludes p.name "This" ||
          (jsIncludes p.name "Last" && !jsIncludes p.name "days" &&
           !jsIncludes p.name "hours") then "Calendar"
  else "Rolling"

/-- `listTimePeriodsTools.execute` (`timefilter.js` lines 465-521):
map the catalog to `periodsInfo`, partition by category, and return
the groups together with `totalCount = periodsInfo.length`. -/
def listTimePeriodsExecute (_a : RawArgs) (_clock : Wallclock) :
    Except String ToolOutcome := .ok <|
  let periodsInfo : List PeriodInfo := PREDEFINED_PERIODS.map (fun p =>
    { name := p.name, scale := p.scale, isCustom := p.isCustom,
      category := periodCategory p })
  let calendarPeriods := periodsInfo.filter (fun p => p.category == "Calendar")
  let rollingPeriods := periodsInfo.filter (fun p => p.category == "Rolling")
  let customPeriods := periodsInfo.filter (fun p => p.category == "Custom")
  { success := true,
    message := "Available Time Periods:\n\nCalendar Periods:\n" ++
      String.intercalate "\n" (calendarPeriods.map (fun p => "- " ++ p.name)) ++
      "\n\nRolling Periods:\n" ++
      String.intercalate "\n" (rollingPeriods.map (fun p => "- " ++ p.name)) ++
      "\n\nCustom Periods:\n" ++
      String.intercalate "\n" (customPeriods.map (fun p => "- " ++ p.name)),
    data := some { calendarPeriods := calendarPeriods,
                   rollingPeriods := rollingPeriods,
                   customPeriods := customPeriods,
                   totalCount := periodsInfo.length } }

/-- A ToolDefinition: name, advertised input schema, argument
validator and executor (`timefilter.js` tool objects). -/
structure ToolDef where
  name : String
  inputSchema : InputSchema
  validateArgs : RawArgs → Except String RawArgs
  execute : RawArgs → Wallclock → Except String ToolOutcome

/-- `setTimePeriodTool` (`timefilter.js` lines 223-336). -/
def setTimePeriodTool : ToolDef :=
  { name := "set_time_period",
    inputSchema :=
      { properties :=
          [("timePeriodName",
            { enumVals := some (PREDEFINED_PERIODS.map (fun p => p.name)) }),
           ("tabName", { enumVals := some tabEnum })],
        required := ["timePeriodName", "tabName"] },
    validateArgs := setTimePeriodValidate,
    execute := setTimePeriodExecute }

/-- `setCustomDateRangeTool` (`timefilter.js` lines 339-447). -/
def setCustomDateRangeTool : ToolDef :=
  { name := "set_custom_date_range",
    inputSchema :=
      { properties :=
          [("startDate", { pattern := some "^\\d\x7b4\x7d-\\d\x7b2\x7d-\\d\x7b2\x7d$" }),
           ("endDate", { pattern := some "^\\d\x7b4\x7d-\\d\x7b2\x7d-\\d\x7b2\x7d$" }),
           ("tabName", { enumVals := some tabEnum })],
        required := ["startDate", "endDate", "tabName"] },
    validateArgs := setCustomDateRangeValidate,
    execute := setCustomDateRangeExecute }

/-- `listTimePeriodsTools` (`timefilter.js` lines 450-521). -/
def listTimePeriodsTool : ToolDef :=
  { name := "list_time_periods",
    inputSchema := { properties := [], required := [] },
    validateArgs := listTimePeriodsValidate,
    execute := listTimePeriodsExecute }

/-- The exported tool array `timeFilterTools`
(`timefilter.js` lines 524-528). -/
def timeFilterTools : List ToolDef :=
  [setTimePeriodTool, setCustomDateRangeTool, listTimePeriodsTool]

/-- The `/mcp/tools/call` handler (`server.js` lines 94-152),
lambda-lifted over the tool array, the wall clock and the generated
response id.  The success envelope's single text content block (the
JSON-stringified outcome) is modelled by carrying the outcome value
itself as the `result` payload. -/
def dispatch (registry : List ToolDef) (name : String) (args : Option RawArgs)
    (clock : Wallclock) (id : String) : MCPEnvelope ToolOutcome :=
  match args with
  | none => createMCPError id "INVALID_REQUEST" "Missing tool name or arguments"
  | some a =>
    if name == "" then
      createMCPError id "INVALID_REQUEST" "Missing tool name or arguments"
    else
      match registry.find? (fun t => t.name == name) with
      | none => createMCPError id "METHOD_NOT_FOUND" ("Tool " ++ name ++ " not found")
      | some tool =>
        match tool.validateArgs a with
        | .error reason =>
          createMCPError id "INVALID_PARAMS" ("Invalid arguments: " ++ reason)
        | .ok validated =>
          match tool.execute validated clock with
          | .error fault =>
            createMCPError id "INTERNAL_ERROR" ("Tool execution failed: " ++ fault)
          | .ok outcome => createMCPResponse id outcome

/-- The failure mode of registration. -/
inductive RegistryFault where
  | duplicateName
deriving DecidableEq, Repr

/-- Modelled from the spec: the repository only exports its tools as
the plain array `timeFilterTools` (`timefilter.js` lines 524-528) and
contains no registration function; the Registry `register` /
`DuplicateNameError` contract of spec section 4.1 is missing from the
sources and is embedded here from the spec's words: `register(tool)`
adds a ToolDefinition and fails with `DuplicateNameError` if a tool
with the same name already exists, leaving the registry as it was. -/
def register (reg : List ToolDef) (tool : ToolDef) :
    Except RegistryFault Unit × List ToolDef :=
  if reg.any (fun t => t.name == tool.name) then (.error .duplicateName, reg)
  else (.ok (), reg ++ [tool])

/-- A registry entry whose executor raises a fault, used to exercise
the dispatcher's fault-containment boundary (no shipped tool ever
raises, each wraps its body in try/catch). -/
def faultingTool : ToolDef :=
  { name := "faulting_tool",
    inputSchema := { properties := [], required := [] },
    validateArgs := fun a => .ok a,
    execute := fun _ _ => .error "boom" }

theorem charsPrefixOf_refl : ∀ l : List Char, charsPrefixOf l l = true
  | [] => rfl
  | a :: as => by simp [charsPrefixOf, charsPrefixOf_refl as]

theorem charsInfixOf_self (l : List Char) : charsInfixOf l l = true := by
  cases l with
  | nil => rfl
  | cons b bs => simp [charsInfixOf, charsPrefixOf_refl]

theorem charsInfixOf_append_left : ∀ (pre l : List Char), charsInfixOf l (pre ++ l) = true
  | [], l => by simpa using charsInfixOf_self l
  | c :: pre, l => by
    have ih := charsInfixOf_append_left pre l
    simp [charsInfixOf, ih]

theorem jsIncludes_append_left (pre s : String) : jsIncludes (pre ++ s) s = true := by
  simpa [jsIncludes, String.toList] using charsInfixOf_append_left pre.data s.data

theorem lookup_eq_none_of_not_mem_keys {β : Type} :
    ∀ (l : List (String × β)) (k : String), k ∉ l.map Prod.fst → l.lookup k = none
  | [], _, _ => rfl
  | (k', _) :: es, k, h => by
    have hne : k ≠ k' := by
      intro he
      exact h (by simp [he])
    have htl : k ∉ es.map Prod.fst := fun hm => h (by simp [hm])
    have hb : (k == k') = false := beq_eq_false_iff_ne.mpr hne
    simp [List.lookup, hb, lookup_eq_none_of_not_mem_keys es k htl]

theorem string_length_eq_zero_iff (s : String) : s.length = 0 ↔ s = "" := by
  constructor
  · intro h
    cases s with
    | mk l =>
      have hl : l = [] := List.length_eq_zero.mp h
      subst hl
      rfl
  · intro h
    subst h
    rfl

theorem find?_eq_of_first_match {α : Type} (p : α → Bool) :
    ∀ (l : List α) (i : Nat) (a : α), l.get? i = some a → p a = true →
      ((l.take i).all fun x => !p x) = true → l.find? p = some a
  | [], i, a, h, _, _ => by simp at h
  | x :: xs, 0, a, h, hp, _ => by
    simp at h
    subst h
    simp [List.find?_cons_of_pos, hp]
  | x :: xs, i + 1, a, h, hp, hall => by
    simp only [List.take_succ_cons, List.all_cons, Bool.and_eq_true] at hall
    have hfx : p x = false := by simpa using hall.1
    rw [List.find?_cons_of_neg xs (show ¬p x = true by simp [hfx])]
    exact find?_eq_of_first_match p xs i a (by simpa using h) hp hall.2

/-- Claim C6 counterexample: a request whose `jsonrpc` field is
present (not `undefined`) with the empty-string value — which differs
from "2.0" — is nevertheless reported valid, because the code tests JS
truthiness, not presence; the claim as stated would require it to be
invalid. -/
theorem claim_C6_counterexample :
    (validateMCPRequest
      (some { jsonrpc := .str "", method := .str "tools/list" })).valid = true
  ∧ ({ jsonrpc := .str "", method := .str "tools/list" } : MCPRequest).jsonrpc ≠ .undef
  ∧ ({ jsonrpc := .str "", method := .str "tools/list" } : MCPRequest).jsonrpc ≠ .str "2.0" := by
  refine ⟨rfl, ?_, ?_⟩ <;> decide

/-- Claim C6 (amended): `validateMCPRequest` returns invalid exactly in
three cases — the request is absent; the `jsonrpc` field holds a truthy
value different from "2.0"; or none of the `method`, `result`, `error`
fields holds a truthy value.  In every other case it returns valid. -/
theorem claim_C6_amended (request : Option MCPRequest) :
    (validateMCPRequest request).valid = false ↔
      (request = none ∨ ∃ r, request = some r ∧
        ((r.jsonrpc.truthy = true ∧ r.jsonrpc ≠ JSVal.str "2.0") ∨
         (r.method.truthy = false ∧ r.result.truthy = false ∧
          r.error.truthy = false))) := by
  cases request with
  | none => simp [validateMCPRequest]
  | some r =>
    constructor
    · intro hv
      simp only [validateMCPRequest] at hv
      split at hv
      · rename_i hcond
        simp only [Bool.and_eq_true, bne_iff_ne] at hcond
        exact Or.inr ⟨r, rfl, Or.inl hcond⟩
      · split at hv
        · rename_i hcond2
          simp only [Bool.and_eq_true, Bool.not_eq_true'] at hcond2
          obtain ⟨⟨h1, h2⟩, h3⟩ := hcond2
          exact Or.inr ⟨r, rfl, Or.inr ⟨h1, h2, h3⟩⟩
        · simp at hv
    · intro h
      rcases h with h | ⟨r', hr, hcase⟩
      · exact absurd h (by simp)
      · have heq : r = r' := by injection hr
        subst heq
        rcases hcase with ⟨ht, hne⟩ | ⟨hm, hres, herr⟩
        · simp [validateMCPRequest, ht, hne]
        · by_cases hc : (r.jsonrpc.truthy && (r.jsonrpc != JSVal.str "2.0")) = true
          · simp [validateMCPRequest, hc]
          · simp [validateMCPRequest, hc, hm, hres, herr]

/-- Claim C7 counterexample: "toString" is outside the static table,
yet `getErrorCode` does not map it to -32000: the JS property access
finds the truthy member inherited from `Object.prototype` and `||`
returns it unchanged. -/
theorem claim_C7_counterexample :
    "toString" ∉ errorCodes.map Prod.fst ∧
    getErrorCode "toString" = .inherited "toString" ∧
    getErrorCode "toString" ≠ .num (-32000) := by
  refine ⟨by decide, rfl, by decide⟩

/-- Claim C7 (amended): `getErrorCode` maps each of the nine symbolic
names to its fixed numeric code; a code name outside the table maps to
-32000 unless it names a member inherited from `Object.prototype`
(constructor, toString, valueOf, hasOwnProperty, ...), in which case
the truthy inherited member itself is returned by the `||` fallback. -/
theorem claim_C7_amended :
    (getErrorCode "PARSE_ERROR" = .num (-32700) ∧
     getErrorCode "INVALID_REQUEST" = .num (-32600) ∧
     getErrorCode "METHOD_NOT_FOUND" = .num (-32601) ∧
     getErrorCode "INVALID_PARAMS" = .num (-32602) ∧
     getErrorCode "INTERNAL_ERROR" = .num (-32603) ∧
     getErrorCode "NOT_FOUND" = .num (-32000) ∧
     getErrorCode "UNAUTHORIZED" = .num (-32001) ∧
     getErrorCode "FORBIDDEN" = .num (-32002) ∧
     getErrorCode "TIMEOUT" = .num (-32003))
  ∧ (∀ code : String, code ∉ errorCodes.map Prod.fst →
      code ∈ objectPrototypeMembers → getErrorCode code = .inherited code)
  ∧ (∀ code : String, code ∉ errorCodes.map Prod.fst →
      code ∉ objectPrototypeMembers → getErrorCode code = .num (-32000)) := by
  refine ⟨⟨rfl, rfl, rfl, rfl, rfl, rfl, rfl, rfl, rfl⟩, ?_, ?_⟩
  · intro code hc hm
    unfold getErrorCode
    rw [lookup_eq_none_of_not_mem_keys errorCodes code hc]
    simp [hm]
  · intro code hc hm
    unfold getErrorCode
    rw [lookup_eq_none_of_not_mem_keys errorCodes code hc]
    simp [hm]

/-- Claim C7 witness: "valueOf" is outside the table but inherited, so
the truthy member is returned; "SOME_UNKNOWN_CODE" is outside both, so
the default -32000 is returned. -/
theorem claim_C7_witness :
    ("valueOf" ∉ errorCodes.map Prod.fst ∧
     "valueOf" ∈ objectPrototypeMembers ∧
     getErrorCode "valueOf" = .inherited "valueOf")
  ∧ ("SOME_UNKNOWN_CODE" ∉ errorCodes.map Prod.fst ∧
     "SOME_UNKNOWN_CODE" ∉ objectPrototypeMembers ∧
     getErrorCode "SOME_UNKNOWN_CODE" = .num (-32000)) :=
  ⟨⟨by decide, by decide,
    claim_C7_amended.2.1 "valueOf" (by decide) (by decide)⟩,
   ⟨by decide, by decide,
    claim_C7_amended.2.2 "SOME_UNKNOWN_CODE" (by decide) (by decide)⟩⟩

/-- Claim C8: every envelope built by `createMCPResponse` carries a
`result` and no `error`, and every envelope built by `createMCPError`
carries an `error` and no `result`: exactly one of the two members is
present. -/
theorem claim_C8 {ρ : Type} (id : String) (r : ρ)
    (idE codeName message : String) (data : Option String) :
    (createMCPResponse id r).result = some r ∧
    (createMCPResponse id r).error = none ∧
    (@createMCPError ρ idE codeName message data).result = none ∧
    (@createMCPError ρ idE codeName message data).error =
      some { code := getErrorCode codeName, message := message, data := data } :=
  ⟨rfl, rfl, rfl, rfl⟩

/-- Claim C9: registering a tool whose name equals an already
registered tool's name fails with `DuplicateNameError` and returns the
registry unchanged (spec-modelled contract; the sources have no
registration function). -/
theorem claim_C9 (reg : List ToolDef) (tool existing : ToolDef)
    (hmem : existing ∈ reg) (hname : existing.name = tool.name) :
    (register reg tool).1 = .error .duplicateName ∧
    (register reg tool).2 = reg := by
  have hany : (reg.any fun t => t.name == tool.name) = true :=
    List.any_eq_true.mpr ⟨existing, hmem, by simp [hname]⟩
  simp [register, hany]

/-- Claim C9 witness: re-registering `set_time_period` on top of the
shipped tool array fails and leaves the array as it was. -/
theorem claim_C9_witness :
    (register timeFilterTools setTimePeriodTool).1 = .error .duplicateName ∧
    (register timeFilterTools setTimePeriodTool).2 = timeFilterTools :=
  claim_C9 timeFilterTools setTimePeriodTool setTimePeriodTool
    (by simp [timeFilterTools]) rfl

/-- Claim C2 counterexample: `set_time_period` advertises enum
constraints for both properties, yet `validateArgs` accepts values
that match neither enumeration, so enum membership is not enforced by
argument validation. -/
theorem claim_C2_counterexample :
    (setTimePeriodTool.validateArgs
      { timePeriodName := .str "Bogus Period", tabName := .str "Bogus Tab" }).isOk = true
  ∧ ((setTimePeriodTool.inputSchema.properties.lookup "timePeriodName").bind
      fun ps => ps.enumVals) = some (PREDEFINED_PERIODS.map fun p => p.name)
  ∧ "Bogus Period" ∉ PREDEFINED_PERIODS.map (fun p => p.name)
  ∧ ((setTimePeriodTool.inputSchema.properties.lookup "tabName").bind
      fun ps => ps.enumVals) = some tabEnum
  ∧ "Bogus Tab" ∉ tabEnum := by
  refine ⟨rfl, rfl, by decide, rfl, by decide⟩

/-- Claim C2 (amended): the enum constraints live only in the
advertised input schema; `set_time_period` argument validation
succeeds exactly when both `timePeriodName` and `tabName` are
non-empty strings, independent of the enumerated literals. -/
theorem claim_C2_amended (a : RawArgs) :
    (setTimePeriodValidate a).isOk = true ↔
      ((∃ s, a.timePeriodName = JSVal.str s ∧ s ≠ "") ∧
       (∃ t, a.tabName = JSVal.str t ∧ t ≠ "")) := by
  cases hv : a.timePeriodName <;> cases hw : a.tabName <;>
    simp [setTimePeriodValidate, hv, hw, Except.isOk, Except.toBool, Nat.lt_one_iff,
      string_length_eq_zero_iff] <;>
    split_ifs <;> simp_all

/-- Claim C3 counterexample: `list_time_periods` reports
`data.totalCount` equal to the full 19-entry catalog size, not the
18 the claim (catalog minus the custom entry) would require. -/
theorem claim_C3_counterexample :
    (Except.toOption (listTimePeriodsExecute {} ⟨0, "1970-01-01T00:00:00.000Z"⟩)).bind
      (fun out => out.data.map fun d => d.totalCount) = some 19
  ∧ PREDEFINED_PERIODS.length = 19
  ∧ (PREDEFINED_PERIODS.filter fun p => p.isCustom).length = 1
  ∧ (19 : Nat) ≠ PREDEFINED_PERIODS.length - 1 := by
  refine ⟨rfl, by decide, by decide, by decide⟩

/-- Claim C3 (amended): executing `list_time_periods` yields a success
outcome whose `data.totalCount` equals the full size of the predefined
period catalog, custom entry included (19 for the 19-entry catalog). -/
theorem claim_C3_amended (a : RawArgs) (clock : Wallclock) :
    ∃ out, listTimePeriodsExecute a clock = .ok out ∧ out.success = true ∧
      out.data.map (fun d => d.totalCount) = some PREDEFINED_PERIODS.length ∧
      PREDEFINED_PERIODS.length = 19 := by
  refine ⟨_, rfl, rfl, ?_, by decide⟩
  simp [List.length_map]

/-- Claim C10: a successful `set_time_period` outcome's filterConfig
carries `startDate`/`endDate` exactly when the matched catalog entry
has scale 100, and the Custom entry is the only catalog entry of
scale 100. -/
theorem claim_C10 (input tab : String) (clock : Wallclock) (p : Period)
    (hp : PREDEFINED_PERIODS.find? (fun q => periodMatches (jsToLower input) q) = some p) :
    ∃ out fc,
      setTimePeriodExecute { timePeriodName := .str input, tabName := .str tab } clock = .ok out ∧
      out.success = true ∧ out.filterConfig = some fc ∧
      (fc.startDate.isSome = true ↔ p.scale = 100) ∧
      (fc.endDate.isSome = true ↔ p.scale = 100) ∧
      (p.scale = 100 ↔ p = { name := "Custom", scale := 100, isCustom := true }) := by
  have hmem : p ∈ PREDEFINED_PERIODS := List.mem_of_find?_eq_some hp
  have hcustom : ∀ q ∈ PREDEFINED_PERIODS,
      q.scale = 100 ↔ q = { name := "Custom", scale := 100, isCustom := true } := by decide
  simp only [setTimePeriodExecute]
  rw [hp]
  refine ⟨_, _, rfl, rfl, rfl, ?_, ?_, hcustom p hmem⟩ <;>
    by_cases hs : p.scale = 100 <;> simp [hs]

/-- Claim C10 witness: the input "Custom" resolves to the scale-100
catalog entry and its filterConfig carries both date fields. -/
theorem claim_C10_witness :
    ∃ out fc,
      setTimePeriodExecute { timePeriodName := .str "Custom", tabName := .str "Overview" }
        ⟨0, "1970-01-01T00:00:00.000Z"⟩ = .ok out ∧
      out.success = true ∧ out.filterConfig = some fc ∧
      (fc.startDate.isSome = true ↔ (100 : Int) = 100) ∧
      (fc.endDate.isSome = true ↔ (100 : Int) = 100) ∧
      ((100 : Int) = 100 ↔
        ({ name := "Custom", scale := 100, isCustom := true } : Period) =
          { name := "Custom", scale := 100, isCustom := true }) :=
  claim_C10 "Custom" "Overview" ⟨0, "1970-01-01T00:00:00.000Z"⟩
    { name := "Custom", scale := 100, isCustom := true } (by decide)

/-- Claim C4: `set_time_period` resolves the input against the catalog
by case-insensitive substring containment in either direction,
returning the first matching entry in declared order; when no entry
matches, the outcome is a failure listing all valid period names. -/
theorem claim_C4 (input tab : String) (clock : Wallclock) :
    (∀ i p, PREDEFINED_PERIODS.get? i = some p →
      periodMatches (jsToLower input) p = true →
      ((PREDEFINED_PERIODS.take i).all fun q => !periodMatches (jsToLower input) q) = true →
      ∃ out, setTimePeriodExecute
          { timePeriodName := .str input, tabName := .str tab } clock = .ok out ∧
        out.success = true ∧
        out.filterConfig.map (fun fc => fc.periodName) = some p.name)
  ∧ ((PREDEFINED_PERIODS.all fun q => !periodMatches (jsToLower input) q) = true →
      ∃ out, setTimePeriodExecute
          { timePeriodName := .str input, tabName := .str tab } clock = .ok out ∧
        out.success = false ∧
        out.availablePeriods = some (PREDEFINED_PERIODS.map fun p => p.name)) := by
  constructor
  · intro i p hi hp hfirst
    have hfind : PREDEFINED_PERIODS.find? (fun q => periodMatches (jsToLower input) q) = some p :=
      find?_eq_of_first_match _ PREDEFINED_PERIODS i p hi hp hfirst
    simp only [setTimePeriodExecute]
    rw [hfind]
    exact ⟨_, rfl, rfl, rfl⟩
  · intro hall
    have hfind : PREDEFINED_PERIODS.find? (fun q => periodMatches (jsToLower input) q) = none := by
      rw [List.find?_eq_none]
      intro x hx
      have := List.all_eq_true.mp hall x hx
      simpa using this
    simp only [setTimePeriodExecute]
    rw [hfind]
    exact ⟨_, rfl, rfl, rfl⟩

/-- Claim C4 witness: the input "last month" resolves, case
insensitively, to the catalog entry "Last Month" (index 9, no earlier
entry matches). -/
theorem claim_C4_witness :
    ∃ out, setTimePeriodExecute
        { timePeriodName := .str "last month", tabName := .str "Overview" }
        ⟨1700000000000, "2023-11-14T22:13:20.000Z"⟩ = .ok out ∧
      out.success = true ∧
      out.filterConfig.map (fun fc => fc.periodName) = some "Last Month" :=
  (claim_C4 "last month" "Overview" ⟨1700000000000, "2023-11-14T22:13:20.000Z"⟩).1
    9 { name := "Last Month", scale := 35, isCustom := false }
    (by decide) (by decide) (by decide)

theorem setCustomDateRangeExecute_success (sd ed tab : String) (clock : Wallclock) :
    ∃ out, setCustomDateRangeExecute
        { tabName := .str tab, startDate := .str sd, endDate := .str ed } clock = .ok out ∧
      (out.success = false ↔
        (jsDateParse sd = none ∨ jsDateParse ed = none ∨
          ∃ s e, jsDateParse sd = some s ∧ jsDateParse ed = some e ∧
            (e.ms < s.ms ∨ clock.ms < e.ms))) := by
  simp only [setCustomDateRangeExecute]
  rcases hps : jsDateParse sd with _ | s
  · refine ⟨_, rfl, ?_⟩
    simp
  · rcases hpe : jsDateParse ed with _ | e
    · refine ⟨_, rfl, ?_⟩
      simp
    · by_cases hlt : e.ms < s.ms
      · refine ⟨_, rfl, ?_⟩
        simp [hlt]
      · by_cases hfut : clock.ms < e.ms
        · refine ⟨_, rfl, ?_⟩
          simp [hlt, hfut]
        · refine ⟨_, rfl, ?_⟩
          simp [hlt, hfut]

/-- Claim C5: for schema-valid arguments, `set_custom_date_range` is
dispatched into a successful envelope wrapping a ToolOutcome, and that
outcome reports failure exactly when a date fails to parse, the start
date is after the end date, or the end date is after the execution
time. -/
theorem claim_C5 (sd ed tab : String) (clock : Wallclock) (id : String)
    (hsd : isYMDShape sd = true) (hed : isYMDShape ed = true) (htab : tab ≠ "") :
    ∃ out,
      dispatch timeFilterTools "set_custom_date_range"
        (some { tabName := .str tab, startDate := .str sd, endDate := .str ed }) clock id =
        createMCPResponse id out ∧
      (out.success = false ↔
        (jsDateParse sd = none ∨ jsDateParse ed = none ∨
          ∃ s e, jsDateParse sd = some s ∧ jsDateParse ed = some e ∧
            (e.ms < s.ms ∨ clock.ms < e.ms))) := by
  obtain ⟨out, hex, hiff⟩ := setCustomDateRangeExecute_success sd ed tab clock
  refine ⟨out, ?_, hiff⟩
  have hfind : timeFilterTools.find? (fun t => t.name == "set_custom_date_range") =
      some setCustomDateRangeTool := rfl
  have hval : setCustomDateRangeTool.validateArgs
      { tabName := .str tab, startDate := .str sd, endDate := .str ed } =
      .ok { tabName := .str tab, startDate := .str sd, endDate := .str ed } := by
    simp [setCustomDateRangeTool, setCustomDateRangeValidate, hsd, hed,
      Nat.lt_one_iff, string_length_eq_zero_iff, htab]
  have hb : (("set_custom_date_range" : String) == "") = false := by decide
  simp only [dispatch, hb, Bool.false_eq_true, if_false, hfind, hval]
  rw [show setCustomDateRangeTool.execute = setCustomDateRangeExecute from rfl, hex]

/-- Claim C5 witness: the reversed range 2024-02-01 to 2024-01-01 on
the Overview tab dispatches into a success envelope whose outcome
fails (start after end). -/
theorem claim_C5_witness :
    ∃ out,
      dispatch timeFilterTools "set_custom_date_range"
        (some { tabName := .str "Overview", startDate := .str "2024-02-01",
                endDate := .str "2024-01-01" })
        ⟨1700000000000, "2023-11-14T22:13:20.000Z"⟩ "resp-1" =
        createMCPResponse "resp-1" out ∧
      (out.success = false ↔
        (jsDateParse "2024-02-01" = none ∨ jsDateParse "2024-01-01" = none ∨
          ∃ s e, jsDateParse "2024-02-01" = some s ∧ jsDateParse "2024-01-01" = some e ∧
            (e.ms < s.ms ∨ (1700000000000 : Int) < e.ms))) :=
  claim_C5 "2024-02-01" "2024-01-01" "Overview"
    ⟨1700000000000, "2023-11-14T22:13:20.000Z"⟩ "resp-1"
    (by decide) (by decide) (by decide)

/-- Claim C1: the dispatcher maps each failure to its fixed error
envelope: a name outside the registry to METHOD_NOT_FOUND (-32601); a
failed argument validation to INVALID_PARAMS (-32602) with the
validator's reason inside the message; and an executor fault is caught
at the dispatch boundary and converted to INTERNAL_ERROR (-32603)
carrying the fault's message. -/
theorem claim_C1 (registry : List ToolDef) (name : String) (a : RawArgs)
    (clock : Wallclock) (id : String) (hname : name ≠ "") :
    (registry.find? (fun t => t.name == name) = none →
      ∃ e, (dispatch registry name (some a) clock id).error = some e ∧
        (dispatch registry name (some a) clock id).result = none ∧
        e.code = .num (-32601))
  ∧ (∀ tool reason, registry.find? (fun t => t.name == name) = some tool →
      tool.validateArgs a = .error reason →
      ∃ e, (dispatch registry name (some a) clock id).error = some e ∧
        (dispatch registry name (some a) clock id).result = none ∧
        e.code = .num (-32602) ∧ jsIncludes e.message reason = true)
  ∧ (∀ tool validated fault, registry.find? (fun t => t.name == name) = some tool →
      tool.validateArgs a = .ok validated →
      tool.execute validated clock = .error fault →
      ∃ e, (dispatch registry name (some a) clock id).error = some e ∧
        (dispatch registry name (some a) clock id).result = none ∧
        e.code = .num (-32603) ∧ jsIncludes e.message fault = true) := by
  have hb : (name == "") = false := beq_eq_false_iff_ne.mpr hname
  refine ⟨?_, ?_, ?_⟩
  · intro h
    have hcode : getErrorCode "METHOD_NOT_FOUND" = .num (-32601) := rfl
    refine ⟨{ code := .num (-32601), message := "Tool " ++ name ++ " not found" }, ?_, ?_, rfl⟩ <;>
      simp [dispatch, hb, h, createMCPError, hcode]
  · intro tool reason hfind hval
    have hcode : getErrorCode "INVALID_PARAMS" = .num (-32602) := rfl
    refine ⟨{ code := .num (-32602), message := "Invalid arguments: " ++ reason }, ?_, ?_, rfl, ?_⟩
    · simp [dispatch, hb, hfind, hval, createMCPError, hcode]
    · simp [dispatch, hb, hfind, hval, createMCPError, hcode]
    · exact jsIncludes_append_left "Invalid arguments: " reason
  · intro tool validated fault hfind hval hexec
    have hcode : getErrorCode "INTERNAL_ERROR" = .num (-32603) := rfl
    refine ⟨{ code := .num (-32603), message := "Tool execution failed: " ++ fault }, ?_, ?_, rfl, ?_⟩
    · simp [dispatch, hb, hfind, hval, hexec, createMCPError, hcode]
    · simp [dispatch, hb, hfind, hval, hexec, createMCPError, hcode]
    · exact jsIncludes_append_left "Tool execution failed: " fault

/-- Claim C1 witness: the three failure legs at concrete inputs — an
unknown tool name, an empty `timePeriodName` rejected by validation,
and a registry entry whose executor raises. -/
theorem claim_C1_witness :
    (∃ e, (dispatch timeFilterTools "nonexistent" (some {})
        ⟨0, "1970-01-01T00:00:00.000Z"⟩ "resp-a").error = some e ∧
      (dispatch timeFilterTools "nonexistent" (some {})
        ⟨0, "1970-01-01T00:00:00.000Z"⟩ "resp-a").result = none ∧
      e.code = .num (-32601))
  ∧ (∃ e, (dispatch timeFilterTools "set_time_period"
        (some { timePeriodName := .str "", tabName := .str "Overview" })
        ⟨0, "1970-01-01T00:00:00.000Z"⟩ "resp-b").error = some e ∧
      (dispatch timeFilterTools "set_time_period"
        (some { timePeriodName := .str "", tabName := .str "Overview" })
        ⟨0, "1970-01-01T00:00:00.000Z"⟩ "resp-b").result = none ∧
      e.code = .num (-32602) ∧ jsIncludes e.message "Time period name is required" = true)
  ∧ (∃ e, (dispatch [faultingTool] "faulting_tool" (some {})
        ⟨0, "1970-01-01T00:00:00.000Z"⟩ "resp-c").error = some e ∧
      (dispatch [faultingTool] "faulting_tool" (some {})
        ⟨0, "1970-01-01T00:00:00.000Z"⟩ "resp-c").result = none ∧
      e.code = .num (-32603) ∧ jsIncludes e.message "boom" = true) :=
  ⟨(claim_C1 timeFilterTools "nonexistent" {} ⟨0, "1970-01-01T00:00:00.000Z"⟩ "resp-a"
      (by decide)).1 rfl,
   (claim_C1 timeFilterTools "set_time_period"
      { timePeriodName := .str "", tabName := .str "Overview" }
      ⟨0, "1970-01-01T00:00:00.000Z"⟩ "resp-b" (by decide)).2.1
      setTimePeriodTool "Time period name is required" rfl rfl,
   (claim_C1 [faultingTool] "faulting_tool" {} ⟨0, "1970-01-01T00:00:00.000Z"⟩ "resp-c"
      (by decide)).2.2 faultingTool {} "boom" rfl rfl rfl⟩
